import Mathlib

/-!
Verification of the serial-wire conformance tester.

The tool's effectful Rust code (src/main.rs, src/tap.rs, src/posix.rs) is
shallowly embedded as state-passing fallible computations over an abstract
world state `σ`: a computation takes the current world and returns a result
together with the updated world; an `Except.error` result models a Rust `Err`
return, and the world state threaded up to the failure point survives it
(matching `&mut` semantics).  Real-time poll budgets (`Duration` arguments to
`wait`) are modelled as iteration fuel: the Rust loop runs some finite number
of predicate evaluations bounded by the wall-clock deadline, and that count is
the `Nat` fuel parameter, with fuel 0 corresponding to a zero or
already-elapsed budget.
-/

namespace SerialTester

/-- Model of `serialport::Error`: the error kinds the tester itself creates
(`Error::from(ErrorKind::TimedOut)` and `Error::other(message)`) plus opaque
hardware / OS errors carrying an errno-like code. -/
inductive SpError : Type where
  | timedOut : SpError
  | other : String → SpError
  | hw : Nat → SpError
deriving DecidableEq, Repr

/-- A state-passing fallible computation: the embedding of a Rust closure
mutating a device world `σ` and returning `Result<α, serialport::Error>`. -/
abbrev M (σ α : Type) : Type := σ → Except SpError α × σ

/-- Embedding of `wait` (src/main.rs lines 28-40): evaluate the predicate up
to `fuel` times; the first `Ok(true)` returns `Ok(true)` at once, the first
`Err` propagates at once, and exhausting the fuel (the deadline) yields
`Ok(false)`.  The deadline test `Instant::now() < timeout` precedes every
predicate call, so fuel 0 returns `Ok(false)` with no evaluation at all. -/
def wait {σ : Type} (predicate : M σ Bool) : Nat → M σ Bool
  | 0 => fun s => (.ok false, s)
  | n + 1 => fun s =>
    match predicate s with
    | (.error e, s₁) => (.error e, s₁)
    | (.ok true, s₁) => (.ok true, s₁)
    | (.ok false, s₁) => wait predicate n s₁

/-- World state reached after `k` evaluations of the predicate starting
from `s`. -/
def iterState {σ : Type} (predicate : M σ Bool) (s : σ) : Nat → σ
  | 0 => s
  | k + 1 => (predicate (iterState predicate s k)).2

/-- Result of the `k`-th (0-based) evaluation of the predicate starting
from world `s`. -/
def evalRes {σ : Type} (predicate : M σ Bool) (s : σ) (k : Nat) :
    Except SpError Bool :=
  (predicate (iterState predicate s k)).1

/-- Demonstration predicate used to witness the `wait` contract: the world is
a counter, each evaluation increments it, and the predicate becomes true once
the counter reaches 2. -/
def demoPred : M Nat Bool :=
  fun s => (.ok (decide (2 ≤ s)), s + 1)

/-- Embedding of the closure `|| get().map(|level| !level)` passed to the
first `wait` in `test_pin`: evaluate `get` and negate a successful reading,
propagating errors. -/
def notGet {σ : Type} (get : M σ Bool) : M σ Bool := fun s =>
  match get s with
  | (.error e, s₁) => (.error e, s₁)
  | (.ok level, s₁) => (.ok (!level), s₁)

/-- Embedding of `test_pin` (src/main.rs lines 42-58): drive the output line
false, wait for the input to read false (else fail "stayed high"), then drive
it true and wait for the input to read true (else fail "stayed low").  The
two 100 ms budgets are the fuels `n₁` and `n₂`. -/
def test_pin {σ : Type} (set : Bool → M σ Unit) (get : M σ Bool)
    (n₁ n₂ : Nat) : M σ Unit := fun s =>
  match set false s with
  | (.error e, s₁) => (.error e, s₁)
  | (.ok _, s₁) =>
    match wait (notGet get) n₁ s₁ with
    | (.error e, s₂) => (.error e, s₂)
    | (.ok true, s₂) =>
      match set true s₂ with
      | (.error e, s₃) => (.error e, s₃)
      | (.ok _, s₃) =>
        match wait get n₂ s₃ with
        | (.error e, s₄) => (.error e, s₄)
        | (.ok true, s₄) => (.ok (), s₄)
        | (.ok false, s₄) => (.error (.other "stayed low"), s₄)
    | (.ok false, s₂) => (.error (.other "stayed high"), s₂)

/-- Demonstration line driver for the `test_pin` witness: the world is the
wire level itself and commanding the line sets it instantly. -/
def demoSet (level : Bool) : M Bool Unit := fun _ => (.ok (), level)

/-- Demonstration line reader for the `test_pin` witness: reading reports the
wire level and leaves it unchanged. -/
def demoGet : M Bool Bool := fun s => (.ok s, s)

/-- Handshake-line set (src/main.rs lines 61-66): four independent booleans
for the commanded or observed state of the DTR/DSR and RTS/CTS pairing. -/
structure Pins where
  data_terminal_ready : Bool
  data_set_ready : Bool
  request_to_send : Bool
  clear_to_send : Bool
deriving DecidableEq, Repr

/-- The serial-port operations `test_transmit` uses, as computations over the
world `σ` (the embedding of the `S: SerialPort` bound at src/main.rs line 82).
Bytes are `Nat` values below 256 and `bytes_to_read` returns the input-buffer
occupancy. -/
structure Port (σ : Type) where
  write_data_terminal_ready : Bool → M σ Unit
  write_request_to_send : Bool → M σ Unit
  read_data_set_ready : M σ Bool
  read_clear_to_send : M σ Bool
  write_all : List Nat → M σ Unit
  bytes_to_read : M σ Nat
  read_exact : Nat → M σ (List Nat)

/-- Embedding of `let pattern: Vec<_> = (u8::MIN..=u8::MAX).collect()`
(src/main.rs line 105): the 256 byte values 0..255 in order. -/
def pattern : List Nat := List.range 256

/-- Lower-case hexadecimal digit, used by the ASCII escape rendering. -/
def hexDigit (n : Nat) : Char :=
  if n < 10 then Char.ofNat (48 + n) else Char.ofNat (87 + n)

/-- Embedding of Rust `u8::escape_ascii` for one byte: tab, carriage return,
newline, backslash, single and double quote get two-character escapes, other
printable ASCII is kept as is, and everything else becomes a lower-case
hexadecimal escape. -/
def escapeAsciiByte (c : Nat) : String :=
  if c = 9 then "\\t"
  else if c = 13 then "\\r"
  else if c = 10 then "\\n"
  else if c = 92 then "\\\\"
  else if c = 39 then "\\" ++ String.singleton (Char.ofNat 39)
  else if c = 34 then "\\\""
  else if 32 ≤ c ∧ c ≤ 126 then String.singleton (Char.ofNat c)
  else "\\x" ++ String.singleton (hexDigit (c / 16)) ++
    String.singleton (hexDigit (c % 16))

/-- Embedding of `<[u8]>::escape_ascii` over a whole byte sequence. -/
def escapeAscii (l : List Nat) : String :=
  String.join (l.map escapeAsciiByte)

/-- The content-mismatch diagnostic built at src/main.rs lines 127-131:
both the received buffer and the expected pattern in escaped form. -/
def mismatchMsg (buf : List Nat) : String :=
  "content mismatched: “" ++ escapeAscii buf ++ "” != “" ++
    escapeAscii pattern ++ "”"

/-- Embedding of the synchronization predicate closure (src/main.rs lines
95-100): each end's observed partner-line state must match the commanded
configuration, with Rust `&&` short-circuiting between the four reads. -/
def syncPred {σ : Type} (pins : Pins) (first second : Port σ) : M σ Bool :=
  fun s =>
  match second.read_data_set_ready s with
  | (.error e, s₁) => (.error e, s₁)
  | (.ok v₁, s₁) =>
    if v₁ == pins.data_terminal_ready then
      match first.read_data_set_ready s₁ with
      | (.error e, s₂) => (.error e, s₂)
      | (.ok v₂, s₂) =>
        if v₂ == pins.data_set_ready then
          match second.read_clear_to_send s₂ with
          | (.error e, s₃) => (.error e, s₃)
          | (.ok v₃, s₃) =>
            if v₃ == pins.request_to_send then
              match first.read_clear_to_send s₃ with
              | (.error e, s₄) => (.error e, s₄)
              | (.ok v₄, s₄) => (.ok (v₄ == pins.clear_to_send), s₄)
            else (.ok false, s₃)
        else (.ok false, s₂)
    else (.ok false, s₁)

/-- Embedding of the occupancy predicate closure (src/main.rs line 110):
`second.bytes_to_read().map(|i| i as usize >= pattern.len())`. -/
def occupancyPred {σ : Type} (second : Port σ) : M σ Bool := fun s =>
  match second.bytes_to_read s with
  | (.error e, s₁) => (.error e, s₁)
  | (.ok i, s₁) => (.ok (decide (pattern.length ≤ i)), s₁)

/-- Embedding of the transmission phase of `test_transmit` (src/main.rs lines
104-134): write the pattern, wait (500 ms budget, fuel `n₂`) for the
destination occupancy to reach the pattern length (timeout fails with
`TimedOut`), re-query the occupancy discarding its error via
`unwrap_or_default`, read that many bytes, and compare for exact equality.
Rust std `read_exact` on an empty buffer returns `Ok` without touching the
port, hence the explicit `size = 0` case. -/
def transmitAfterSync {σ : Type} (first second : Port σ) (n₂ : Nat) :
    M σ Unit := fun s =>
  match first.write_all pattern s with
  | (.error e, s₁) => (.error e, s₁)
  | (.ok _, s₁) =>
    match wait (occupancyPred second) n₂ s₁ with
    | (.error e, s₂) => (.error e, s₂)
    | (.ok false, s₂) => (.error .timedOut, s₂)
    | (.ok true, s₂) =>
      let q := second.bytes_to_read s₂
      let size : Nat := match q.1 with
        | .ok v => v
        | .error _ => 0
      match (if size = 0 then ((.ok [], q.2) : Except SpError (List Nat) × σ)
             else second.read_exact size q.2) with
      | (.error e, s₄) => (.error e, s₄)
      | (.ok buf, s₄) =>
        if buf == pattern then (.ok (), s₄)
        else (.error (.other (mismatchMsg buf)), s₄)

/-- Embedding of `test_transmit` (src/main.rs lines 82-134): command the four
handshake lines, best-effort wait (100 ms budget, fuel `n₁`) for the observed
partner-line states to match, then run the transmission phase. -/
def test_transmit {σ : Type} (pins : Pins) (first second : Port σ)
    (n₁ n₂ : Nat) : M σ Unit := fun s =>
  match first.write_data_terminal_ready pins.data_terminal_ready s with
  | (.error e, s₁) => (.error e, s₁)
  | (.ok _, s₁) =>
    match second.write_data_terminal_ready pins.data_set_ready s₁ with
    | (.error e, s₂) => (.error e, s₂)
    | (.ok _, s₂) =>
      match first.write_request_to_send pins.request_to_send s₂ with
      | (.error e, s₃) => (.error e, s₃)
      | (.ok _, s₃) =>
        match second.write_request_to_send pins.clear_to_send s₃ with
        | (.error e, s₄) => (.error e, s₄)
        | (.ok _, s₄) =>
          match wait (syncPred pins first second) n₁ s₄ with
          | (.error e, s₅) => (.error e, s₅)
          | (.ok _, s₅) => transmitAfterSync first second n₂ s₅

/-- The all-deasserted handshake configuration, used in witnesses. -/
def pinsAllFalse : Pins :=
  { data_terminal_ready := false, data_set_ready := false,
    request_to_send := false, clear_to_send := false }

/-- Demonstration loop-back port for witnesses: the world is the in-flight
byte queue; written bytes are appended, the occupancy is the queue length and
reading consumes from the front; all handshake lines read as deasserted. -/
def demoPort : Port (List Nat) where
  write_data_terminal_ready := fun _ s => (.ok (), s)
  write_request_to_send := fun _ s => (.ok (), s)
  read_data_set_ready := fun s => (.ok false, s)
  read_clear_to_send := fun s => (.ok false, s)
  write_all := fun data s => (.ok (), s ++ data)
  bytes_to_read := fun s => (.ok s.length, s)
  read_exact := fun k s => (.ok (s.take k), s.drop k)

/-- Demonstration port whose occupancy query succeeds once and then fails,
used to witness the discarded-error behaviour: the world counts the
`bytes_to_read` calls made so far. -/
def flakyPort : Port Nat where
  write_data_terminal_ready := fun _ s => (.ok (), s)
  write_request_to_send := fun _ s => (.ok (), s)
  read_data_set_ready := fun s => (.ok false, s)
  read_clear_to_send := fun s => (.ok false, s)
  write_all := fun _ s => (.ok (), s)
  bytes_to_read := fun s =>
    if s = 0 then (.ok 256, 1) else (.error (.hw 5), s + 1)
  read_exact := fun _ s => (.ok [], s)

/-- A reported TAP check line, `ok N - description` or `not ok N -
description` (src/tap.rs lines 43-48 and 66-71; colour codes and the
diagnostic block attached to failures are elided). -/
inductive TapLine where
  | ok : Nat → String → TapLine
  | not_ok : Nat → String → TapLine
deriving DecidableEq, Repr

/-- The TAP reporter state (src/tap.rs lines 22-25) together with the check
lines printed so far. -/
structure Tap where
  counter : Nat
  plan : Nat
  output : List TapLine
deriving DecidableEq, Repr

/-- Embedding of `Tap::new` (src/tap.rs lines 28-35): zero counter, the
declared plan, and the plan line already printed. -/
def Tap.new (plan : Nat) : Tap := { counter := 0, plan := plan, output := [] }

/-- Embedding of `Tap::ok` (src/tap.rs lines 37-50): while the counter is
below the plan, bump it and print an `ok` line numbered by the new value. -/
def Tap.ok (t : Tap) (description : String) : Tap :=
  if t.counter < t.plan then
    { t with counter := t.counter + 1,
             output := t.output ++ [.ok (t.counter + 1) description] }
  else t

/-- Embedding of `Tap::skip` (src/tap.rs lines 52-57): an `ok` line whose
description carries the `# SKIP` directive. -/
def Tap.skip (t : Tap) (description : String) : Tap :=
  t.ok (description ++ " # SKIP")

/-- Embedding of `Tap::not_ok` (src/tap.rs lines 59-76): while the counter is
below the plan, bump it and print a `not ok` line. -/
def Tap.not_ok (t : Tap) (description : String) : Tap :=
  if t.counter < t.plan then
    { t with counter := t.counter + 1,
             output := t.output ++ [.not_ok (t.counter + 1) description] }
  else t

/-- Embedding of `Tap::result` (src/tap.rs lines 78-88): route an `Err`
outcome to `not_ok` and an `Ok` outcome to `ok`. -/
def Tap.result {α : Type} (t : Tap) (description : String)
    (r : Except SpError α) : Tap :=
  match r with
  | .error _ => t.not_ok description
  | .ok _ => t.ok description

/-- One reporter call made by `main`: a check outcome handed to
`Tap::result`, or a `Tap::skip`. -/
inductive CheckCall where
  | result : String → Except SpError Unit → CheckCall
  | skip : String → CheckCall

/-- Whether a reporter call is a skip. -/
def CheckCall.isSkip : CheckCall → Bool
  | .skip _ => true
  | .result _ _ => false

/-- Apply one reporter call to the TAP state. -/
def Tap.run1 (t : Tap) : CheckCall → Tap
  | .result d r => t.result d r
  | .skip d => t.skip d

/-- Embedding of `state_of` (src/main.rs lines 70-72), colours elided. -/
def state_of (pin : Bool) : String := if pin then "up" else "down"

/-- Display of `Pins` (src/main.rs lines 68-80). -/
def pinsDisplay (p : Pins) : String :=
  "DTR " ++ state_of p.data_terminal_ready ++ ", DSR " ++
    state_of p.data_set_ready ++ ", RTS " ++ state_of p.request_to_send ++
    ", CTS " ++ state_of p.clear_to_send

/-- Decode of the 4-bit configuration counter (src/main.rs lines 215-220). -/
def pinsOfNat (i : Nat) : Pins :=
  { data_terminal_ready := i &&& 1 != 0,
    data_set_ready := i &&& 2 != 0,
    request_to_send := i &&& 4 != 0,
    clear_to_send := i &&& 8 != 0 }

/-- The four tested baud rates (src/main.rs line 26). -/
def BAUD_RATES : List Nat := [9600, 19200, 38400, 115200]

/-- Descriptions of the four handshake-line checks, in program order
(src/main.rs lines 154-200). -/
def pinDescs : List String :=
  ["test RTS → CTS", "test CTS ← RTS", "test DTR → DSR", "test DSR ← DTR"]

/-- The sequence of reporter calls `main` makes (src/main.rs lines 136-236):
the two open results, the four handshake-line checks — each run when both
ports opened and skipped otherwise — then for every baud rate and every
4-bit pin configuration a send-direction and a receive-direction
transmission check, likewise run or skipped per check.  Hardware-dependent
check outcomes are supplied by the oracles `pinOutcome` and `txOutcome`;
`d₁` and `d₂` are the quoted device paths of the open descriptions. -/
def mainCalls (d₁ d₂ : String) (openFirst openSecond : Except SpError Unit)
    (pinOutcome : Nat → Except SpError Unit)
    (txOutcome : Nat → Nat → Bool → Except SpError Unit) : List CheckCall :=
  let both := openFirst.isOk && openSecond.isOk
  [CheckCall.result ("open " ++ d₁) openFirst,
   CheckCall.result ("open " ++ d₂) openSecond]
  ++ (List.range 4).map (fun i =>
      if both then CheckCall.result (pinDescs.getD i "") (pinOutcome i)
      else CheckCall.skip (pinDescs.getD i ""))
  ++ (BAUD_RATES.map (fun baud =>
      ((List.range 16).map (fun p =>
        let pd := pinsDisplay (pinsOfNat p)
        [(if both then
            CheckCall.result
              ("send data at " ++ toString baud ++ " bps (" ++ pd ++ ")")
              (txOutcome baud p false)
          else CheckCall.skip
              ("send data at " ++ toString baud ++ " bps (" ++ pd ++ ")")),
         (if both then
            CheckCall.result
              ("receive data at " ++ toString baud ++ " bps (" ++ pd ++ ")")
              (txOutcome baud p true)
          else CheckCall.skip
              ("receive data at " ++ toString baud ++ " bps (" ++ pd ++
                ")"))])).flatten)).flatten

/-- The TAP state after `main`'s run: `Tap::new(134)` (src/main.rs line 139)
followed by all reporter calls in program order. -/
def mainTap (d₁ d₂ : String) (openFirst openSecond : Except SpError Unit)
    (pinOutcome : Nat → Except SpError Unit)
    (txOutcome : Nat → Nat → Bool → Except SpError Unit) : Tap :=
  (mainCalls d₁ d₂ openFirst openSecond pinOutcome txOutcome).foldl
    Tap.run1 (Tap.new 134)

/-- An errno-carrying OS call returning the modem-status bitmask: the
embedding of the `tiocmget` ioctl on the wrapped file descriptor
(src/posix.rs line 14). -/
abbrev OsCall (σ : Type) : Type := σ → Except Nat Nat × σ

/-- The full capability surface implemented for `FixedTTYPort` in
src/posix.rs — the `SerialPort` trait plus the `Read`/`Write` operations —
as abstract computations over the world `σ`.  Configuration values
(data bits, flow control, parity, stop bits, buffer selector, timeout) are
opaque payloads modelled as `Nat`; `κ` is the return type of `try_clone`. -/
structure SerialPortOps (σ κ : Type) where
  read : Nat → M σ (List Nat)
  write : List Nat → M σ Nat
  flush : M σ Unit
  name : σ → Option String
  baud_rate : M σ Nat
  data_bits : M σ Nat
  flow_control : M σ Nat
  parity : M σ Nat
  stop_bits : M σ Nat
  timeout : σ → Nat
  set_baud_rate : Nat → M σ Unit
  set_data_bits : Nat → M σ Unit
  set_flow_control : Nat → M σ Unit
  set_parity : Nat → M σ Unit
  set_stop_bits : Nat → M σ Unit
  set_timeout : Nat → M σ Unit
  write_request_to_send : Bool → M σ Unit
  write_data_terminal_ready : Bool → M σ Unit
  read_clear_to_send : M σ Bool
  read_data_set_ready : M σ Bool
  read_ring_indicator : M σ Bool
  read_carrier_detect : M σ Bool
  bytes_to_read : M σ Nat
  bytes_to_write : M σ Nat
  clear : Nat → M σ Unit
  try_clone : M σ κ
  set_break : M σ Unit
  clear_break : M σ Unit

/-- Linux modem-status bits used by src/posix.rs. -/
def TIOCM_CTS : Nat := 0x020

/-- Carrier-detect modem-status bit. -/
def TIOCM_CD : Nat := 0x040

/-- Ring-indicator modem-status bit. -/
def TIOCM_RI : Nat := 0x080

/-- Data-set-ready modem-status bit. -/
def TIOCM_DSR : Nat := 0x100

/-- Embedding of `FixedTTYPort::read_pin` (src/posix.rs lines 18-25): query
the modem-status register through the TIOCMGET ioctl, decode the requested
bit with `status & pin == pin`, and translate an OS errno into the port
abstraction's error type. -/
def read_pin {σ : Type} (os : OsCall σ) (pin : Nat) : M σ Bool := fun s =>
  match os s with
  | (.ok status, s₁) => (.ok (status &&& pin == pin), s₁)
  | (.error err, s₁) => (.error (.hw err), s₁)

/-- Embedding of the `Read`, `Write` and `SerialPort` implementations for
`FixedTTYPort` (src/posix.rs lines 27-143): the four modem-status reads use
`read_pin` on the OS call; every other operation forwards to the wrapped
handle unchanged. -/
def FixedTTYPort {σ κ : Type} (inner : SerialPortOps σ κ) (os : OsCall σ) :
    SerialPortOps σ κ where
  read := inner.read
  write := inner.write
  flush := inner.flush
  name := inner.name
  baud_rate := inner.baud_rate
  data_bits := inner.data_bits
  flow_control := inner.flow_control
  parity := inner.parity
  stop_bits := inner.stop_bits
  timeout := inner.timeout
  set_baud_rate := inner.set_baud_rate
  set_data_bits := inner.set_data_bits
  set_flow_control := inner.set_flow_control
  set_parity := inner.set_parity
  set_stop_bits := inner.set_stop_bits
  set_timeout := inner.set_timeout
  write_request_to_send := inner.write_request_to_send
  write_data_terminal_ready := inner.write_data_terminal_ready
  read_clear_to_send := read_pin os TIOCM_CTS
  read_data_set_ready := read_pin os TIOCM_DSR
  read_ring_indicator := read_pin os TIOCM_RI
  read_carrier_detect := read_pin os TIOCM_CD
  bytes_to_read := inner.bytes_to_read
  bytes_to_write := inner.bytes_to_write
  clear := inner.clear
  try_clone := inner.try_clone
  set_break := inner.set_break
  clear_break := inner.clear_break

/-- Demonstration OS modem-status call for the adapter witness: the register
reads CTS and DSR asserted (bits 0x020 and 0x100). -/
def demoOs : OsCall Nat := fun s => (.ok 0x120, s)

/-- Demonstration inner handle for the adapter witness: every operation is a
trivial success over a unit-like world. -/
def demoInner : SerialPortOps Nat Unit where
  read := fun _ s => (.ok [], s)
  write := fun data s => (.ok data.length, s)
  flush := fun s => (.ok (), s)
  name := fun _ => none
  baud_rate := fun s => (.ok 9600, s)
  data_bits := fun s => (.ok 8, s)
  flow_control := fun s => (.ok 0, s)
  parity := fun s => (.ok 0, s)
  stop_bits := fun s => (.ok 1, s)
  timeout := fun _ => 0
  set_baud_rate := fun _ s => (.ok (), s)
  set_data_bits := fun _ s => (.ok (), s)
  set_flow_control := fun _ s => (.ok (), s)
  set_parity := fun _ s => (.ok (), s)
  set_stop_bits := fun _ s => (.ok (), s)
  set_timeout := fun _ s => (.ok (), s)
  write_request_to_send := fun _ s => (.ok (), s)
  write_data_terminal_ready := fun _ s => (.ok (), s)
  read_clear_to_send := fun s => (.ok false, s)
  read_data_set_ready := fun s => (.ok false, s)
  read_ring_indicator := fun s => (.ok false, s)
  read_carrier_detect := fun s => (.ok false, s)
  bytes_to_read := fun s => (.ok 0, s)
  bytes_to_write := fun s => (.ok 0, s)
  clear := fun _ s => (.ok (), s)
  try_clone := fun s => (.ok (), s)
  set_break := fun s => (.ok (), s)
  clear_break := fun s => (.ok (), s)

end SerialTester

namespace SerialTester

theorem iterState_shift {σ : Type} (predicate : M σ Bool) (s : σ) (k : Nat) :
    iterState predicate (predicate s).2 k = iterState predicate s (k + 1) := by
  induction k with
  | zero => rfl
  | succ k ih => simp [iterState, ih]

theorem evalRes_shift {σ : Type} (predicate : M σ Bool) (s : σ) (k : Nat) :
    evalRes predicate (predicate s).2 k = evalRes predicate s (k + 1) := by
  simp [evalRes, iterState_shift]

theorem evalRes_step {σ : Type} (predicate : M σ Bool) (s s₁ : σ)
    (r : Except SpError Bool) (hp : predicate s = (r, s₁)) (k : Nat) :
    evalRes predicate s₁ k = evalRes predicate s (k + 1) := by
  have h2 : s₁ = (predicate s).2 := by rw [hp]
  rw [h2, evalRes_shift]

/-- C1: the poll-wait primitive `wait` returns `Ok(true)` when some predicate
evaluation returns true before the deadline (all earlier ones returning
false), returns `Ok(false)` when the deadline passes with every evaluation
returning false, and propagates the first predicate error immediately — an
error is never treated as the predicate being not yet true. -/
theorem wait_contract {σ : Type} (predicate : M σ Bool) (n : Nat) (s : σ) :
    ((∃ k, k < n ∧ evalRes predicate s k = .ok true ∧
        (∀ j, j < k → evalRes predicate s j = .ok false)) →
      (wait predicate n s).1 = .ok true) ∧
    ((∀ k, k < n → evalRes predicate s k = .ok false) →
      (wait predicate n s).1 = .ok false) ∧
    (∀ e k, k < n → evalRes predicate s k = .error e →
      (∀ j, j < k → evalRes predicate s j = .ok false) →
      (wait predicate n s).1 = .error e) := by
  induction n generalizing s with
  | zero =>
    refine ⟨?_, ?_, ?_⟩
    · rintro ⟨k, hk, -⟩; omega
    · intro _; rfl
    · intro e k hk; omega
  | succ n ih =>
    rcases hp : predicate s with ⟨r, s₁⟩
    have hstep : ∀ k, evalRes predicate s₁ k = evalRes predicate s (k + 1) :=
      evalRes_step predicate s s₁ r hp
    have hz : evalRes predicate s 0 = r := by
      show (predicate (iterState predicate s 0)).1 = r
      rw [iterState, hp]
    refine ⟨?_, ?_, ?_⟩
    · rintro ⟨k, hk, htrue, hfalse⟩
      match k with
      | 0 =>
        have hr : r = .ok true := by rw [← hz]; exact htrue
        subst hr
        simp [wait, hp]
      | k + 1 =>
        have hr : r = .ok false := by rw [← hz]; exact hfalse 0 (Nat.succ_pos k)
        subst hr
        simp only [wait, hp]
        exact (ih s₁).1 ⟨k, by omega, by rw [hstep]; exact htrue,
          fun j hj => by rw [hstep]; exact hfalse (j + 1) (by omega)⟩
    · intro hall
      have hr : r = .ok false := by rw [← hz]; exact hall 0 (Nat.succ_pos n)
      subst hr
      simp only [wait, hp]
      exact (ih s₁).2.1 fun k hk => by rw [hstep]; exact hall (k + 1) (by omega)
    · intro e k hk herr hfalse
      match k with
      | 0 =>
        have hr : r = .error e := by rw [← hz]; exact herr
        subst hr
        simp [wait, hp]
      | k + 1 =>
        have hr : r = .ok false := by rw [← hz]; exact hfalse 0 (Nat.succ_pos k)
        subst hr
        simp only [wait, hp]
        exact (ih s₁).2.2 e k (by omega) (by rw [hstep]; exact herr)
          fun j hj => by rw [hstep]; exact hfalse (j + 1) (by omega)

/-- Witness for C1: on the concrete counter predicate, the third evaluation
is the first true one, so five units of budget produce `Ok(true)`. -/
theorem wait_contract_witness : (wait demoPred 5 0).1 = .ok true :=
  (wait_contract demoPred 5 0).1
    ⟨2, by omega, by rfl, by intro j hj; interval_cases j <;> rfl⟩

/-- C9: with zero (or already-elapsed) budget, `wait` returns `Ok(false)`
for every predicate, leaving the world untouched — the predicate is not
evaluated even once, so a condition already true at call time is still
reported as false. -/
theorem wait_zero_no_eval {σ : Type} (predicate : M σ Bool) (s : σ) :
    wait predicate 0 s = (.ok false, s) := rfl

/-- C2: the handshake-line test first commands the line false; if the low
poll-wait times out it fails with "stayed high" with the world exactly as the
failed wait left it (the line is never commanded high); only after the low
confirmation does it command the line true, failing with "stayed low" when
the high poll-wait times out; and it succeeds exactly when both line
commands succeed and both confirmations occur. -/
theorem test_pin_spec {σ : Type} (set : Bool → M σ Unit) (get : M σ Bool)
    (n₁ n₂ : Nat) (s : σ) :
    ((test_pin set get n₁ n₂ s).1 = .ok () ↔
      ∃ s₁ s₂ s₃ s₄, set false s = (.ok (), s₁) ∧
        wait (notGet get) n₁ s₁ = (.ok true, s₂) ∧
        set true s₂ = (.ok (), s₃) ∧ wait get n₂ s₃ = (.ok true, s₄)) ∧
    (∀ s₁ s₂, set false s = (.ok (), s₁) →
      wait (notGet get) n₁ s₁ = (.ok false, s₂) →
      test_pin set get n₁ n₂ s = (.error (.other "stayed high"), s₂)) ∧
    (∀ s₁ s₂ s₃ s₄, set false s = (.ok (), s₁) →
      wait (notGet get) n₁ s₁ = (.ok true, s₂) →
      set true s₂ = (.ok (), s₃) →
      wait get n₂ s₃ = (.ok false, s₄) →
      test_pin set get n₁ n₂ s = (.error (.other "stayed low"), s₄)) := by
  refine ⟨⟨?_, ?_⟩, ?_, ?_⟩
  · intro h
    rw [test_pin] at h
    rcases h1 : set false s with ⟨r1, s₁⟩
    simp only [h1] at h
    cases r1 with
    | error e => simp at h
    | ok u =>
      cases u
      rcases h2 : wait (notGet get) n₁ s₁ with ⟨r2, s₂⟩
      simp only [h2] at h
      cases r2 with
      | error e => simp at h
      | ok b2 =>
        cases b2 with
        | false => simp at h
        | true =>
          rcases h3 : set true s₂ with ⟨r3, s₃⟩
          simp only [h3] at h
          cases r3 with
          | error e => simp at h
          | ok u =>
            cases u
            rcases h4 : wait get n₂ s₃ with ⟨r4, s₄⟩
            simp only [h4] at h
            cases r4 with
            | error e => simp at h
            | ok b4 =>
              cases b4 with
              | false => simp at h
              | true => exact ⟨s₁, s₂, s₃, s₄, rfl, h2, h3, h4⟩
  · rintro ⟨s₁, s₂, s₃, s₄, h1, h2, h3, h4⟩
    simp [test_pin, h1, h2, h3, h4]
  · intro s₁ s₂ h1 h2
    simp [test_pin, h1, h2]
  · intro s₁ s₂ s₃ s₄ h1 h2 h3 h4
    simp [test_pin, h1, h2, h3, h4]

/-- Witness for C2: with an instantly-following demonstration wire the test
succeeds, via the success characterization of `test_pin_spec`. -/
theorem test_pin_spec_witness : (test_pin demoSet demoGet 1 1 true).1 = .ok () :=
  (test_pin_spec demoSet demoGet 1 1 true).1.mpr
    ⟨false, false, true, true, rfl, rfl, rfl, rfl⟩

/-- C3: once the pattern is written, an occupancy wait that ends with false
yields exactly the timed-out error, an occupancy-wait hardware error
propagates as itself, and when the occupancy is reached in time the test
succeeds exactly when the bytes read equal the pattern, any difference being
reported as the content-mismatch diagnostic showing both sequences in escaped
form — an error distinct from the timed-out one, with no retry: the result is
fully determined by this single pass. -/
theorem transmit_outcomes {σ : Type} (first second : Port σ) (n₂ : Nat)
    (s s₁ : σ) (h1 : first.write_all pattern s = (.ok (), s₁)) :
    (∀ s₂, wait (occupancyPred second) n₂ s₁ = (.ok false, s₂) →
      transmitAfterSync first second n₂ s = (.error .timedOut, s₂)) ∧
    (∀ s₂ e, wait (occupancyPred second) n₂ s₁ = (.error e, s₂) →
      transmitAfterSync first second n₂ s = (.error e, s₂)) ∧
    (∀ s₂ size s₃ buf s₄,
      wait (occupancyPred second) n₂ s₁ = (.ok true, s₂) →
      second.bytes_to_read s₂ = (.ok size, s₃) → size ≠ 0 →
      second.read_exact size s₃ = (.ok buf, s₄) →
      ((buf = pattern → transmitAfterSync first second n₂ s = (.ok (), s₄)) ∧
       (buf ≠ pattern → transmitAfterSync first second n₂ s =
          (.error (.other (mismatchMsg buf)), s₄)))) ∧
    (∀ buf, SpError.other (mismatchMsg buf) ≠ SpError.timedOut) := by
  refine ⟨?_, ?_, ?_, ?_⟩
  · intro s₂ h2
    simp [transmitAfterSync, h1, h2]
  · intro s₂ e h2
    simp [transmitAfterSync, h1, h2]
  · intro s₂ size s₃ buf s₄ h2 h3 hsz h4
    constructor
    · intro hbuf
      simp [transmitAfterSync, h1, h2, h3, hsz, h4, hbuf]
    · intro hbuf
      simp [transmitAfterSync, h1, h2, h3, hsz, h4, hbuf]
  · intro buf h
    exact SpError.noConfusion h

set_option maxRecDepth 10000 in
/-- Witness for C3: on the loop-back demonstration port the written pattern
arrives intact and the test succeeds. -/
theorem transmit_outcomes_witness :
    transmitAfterSync demoPort demoPort 1 [] = (.ok (), []) :=
  ((transmit_outcomes demoPort demoPort 1 [] pattern rfl).2.2.1
    pattern 256 pattern pattern [] rfl rfl (by decide) rfl).1 rfl

/-- C4: in `test_transmit`, after the four handshake-line commands succeed,
the synchronization wait is best-effort — whatever boolean it returns, the
test proceeds identically to the transmission phase from the world the wait
left; only a hardware error raised inside the synchronization predicate
aborts the check, propagating as itself. -/
theorem sync_timeout_tolerated {σ : Type} (pins : Pins)
    (first second : Port σ) (n₁ n₂ : Nat) (s s₁ s₂ s₃ s₄ : σ)
    (h1 : first.write_data_terminal_ready pins.data_terminal_ready s =
      (.ok (), s₁))
    (h2 : second.write_data_terminal_ready pins.data_set_ready s₁ =
      (.ok (), s₂))
    (h3 : first.write_request_to_send pins.request_to_send s₂ = (.ok (), s₃))
    (h4 : second.write_request_to_send pins.clear_to_send s₃ =
      (.ok (), s₄)) :
    (∀ b s₅, wait (syncPred pins first second) n₁ s₄ = (.ok b, s₅) →
      test_transmit pins first second n₁ n₂ s =
        transmitAfterSync first second n₂ s₅) ∧
    (∀ e s₅, wait (syncPred pins first second) n₁ s₄ = (.error e, s₅) →
      test_transmit pins first second n₁ n₂ s = (.error e, s₅)) := by
  constructor
  · intro b s₅ h5
    simp [test_transmit, h1, h2, h3, h4, h5]
  · intro e s₅ h5
    simp [test_transmit, h1, h2, h3, h4, h5]

/-- Witness for C4: on the loop-back demonstration port the synchronization
wait returns a boolean and the test continues into the transmission phase. -/
theorem sync_timeout_tolerated_witness :
    test_transmit pinsAllFalse demoPort demoPort 1 1 [] =
      transmitAfterSync demoPort demoPort 1 [] :=
  (sync_timeout_tolerated pinsAllFalse demoPort demoPort 1 1 [] [] [] [] []
    rfl rfl rfl rfl).1 true [] rfl

/-- C8: the transmission fingerprint is the fixed deterministic sequence of
the 256 byte values 0..255 (the realized arm of the configuration choice),
and reception is judged by exact equality of the received buffer against it
— the boolean comparison in the code holds precisely on equal lists. -/
theorem pattern_fixed :
    pattern = List.range 256 ∧
    pattern.length = 256 ∧
    (∀ i, i < 256 → pattern[i]? = some i) ∧
    (∀ buf : List Nat, (buf == pattern) = true ↔ buf = pattern) := by
  refine ⟨rfl, by simp [pattern], ?_, fun buf => beq_iff_eq⟩
  intro i hi
  simp [pattern, List.getElem?_range hi]

/-- Witness for C8: the entry at index 7 of the pattern is the byte 7. -/
theorem pattern_fixed_witness : pattern[7]? = some 7 :=
  pattern_fixed.2.2.1 7 (by omega)

/-- C10: when the occupancy wait has succeeded but the second occupancy query
fails, its error is discarded (`unwrap_or_default` turns it into occupancy
zero), so the test reads zero bytes and reports the content-mismatch
diagnostic with an empty received sequence instead of propagating the
hardware error. -/
theorem occupancy_error_discarded {σ : Type} (first second : Port σ)
    (n₂ : Nat) (s s₁ s₂ : σ) (e : SpError) (s₃ : σ)
    (h1 : first.write_all pattern s = (.ok (), s₁))
    (h2 : wait (occupancyPred second) n₂ s₁ = (.ok true, s₂))
    (h3 : second.bytes_to_read s₂ = (.error e, s₃)) :
    transmitAfterSync first second n₂ s =
      (.error (.other (mismatchMsg [])), s₃) ∧
    escapeAscii [] = "" := by
  constructor
  · simp [transmitAfterSync, h1, h2, h3, mismatchMsg]
    simp [pattern, List.range_eq_nil]
  · rfl

set_option maxRecDepth 10000 in
/-- Witness for C10: a port whose occupancy query succeeds once and then
fails produces the empty-sequence mismatch diagnostic. -/
theorem occupancy_error_discarded_witness :
    transmitAfterSync flakyPort flakyPort 1 0 =
      (.error (.other (mismatchMsg [])), 2) ∧
    escapeAscii [] = "" :=
  occupancy_error_discarded flakyPort flakyPort 1 0 0 1 (.hw 5) 2 rfl rfl rfl

theorem Tap.run1_plan (t : Tap) (c : CheckCall) : (t.run1 c).plan = t.plan := by
  cases c with
  | result d r =>
    cases r <;> simp only [Tap.run1, Tap.result, Tap.ok, Tap.not_ok] <;>
      split <;> rfl
  | skip d =>
    simp only [Tap.run1, Tap.skip, Tap.ok]
    split <;> rfl

theorem Tap.run1_counter (t : Tap) (c : CheckCall) :
    (t.run1 c).counter =
      if t.counter < t.plan then t.counter + 1 else t.counter := by
  cases c with
  | result d r =>
    cases r <;> simp only [Tap.run1, Tap.result, Tap.ok, Tap.not_ok] <;>
      split <;> simp_all
  | skip d =>
    simp only [Tap.run1, Tap.skip, Tap.ok]
    split <;> simp_all

theorem Tap.run1_output_len (t : Tap) (c : CheckCall) :
    (t.run1 c).output.length =
      if t.counter < t.plan then t.output.length + 1
      else t.output.length := by
  cases c with
  | result d r =>
    cases r <;> simp only [Tap.run1, Tap.result, Tap.ok, Tap.not_ok] <;>
      split <;> simp_all
  | skip d =>
    simp only [Tap.run1, Tap.skip, Tap.ok]
    split <;> simp_all

theorem Tap.runList_full (l : List CheckCall) (t : Tap)
    (h : t.counter + l.length ≤ t.plan) :
    (l.foldl Tap.run1 t).plan = t.plan ∧
    (l.foldl Tap.run1 t).counter = t.counter + l.length ∧
    (l.foldl Tap.run1 t).output.length = t.output.length + l.length := by
  induction l generalizing t with
  | nil => simp
  | cons c l ih =>
    have hlt : t.counter < t.plan := by
      simp only [List.length_cons] at h; omega
    have h1 := Tap.run1_plan t c
    have h2 := Tap.run1_counter t c
    have h3 := Tap.run1_output_len t c
    rw [if_pos hlt] at h2 h3
    have hrec := ih (t.run1 c) (by
      rw [h1, h2]
      simp only [List.length_cons] at h
      omega)
    rw [List.foldl_cons] at *
    refine ⟨by rw [hrec.1, h1], ?_, ?_⟩
    · rw [hrec.2.1, h2]
      simp only [List.length_cons]
      omega
    · rw [hrec.2.2, h3]
      simp only [List.length_cons]
      omega

theorem Tap.runList_le (l : List CheckCall) (t : Tap)
    (h : t.counter ≤ t.plan) :
    (l.foldl Tap.run1 t).plan = t.plan ∧
    (l.foldl Tap.run1 t).counter ≤ t.plan := by
  induction l generalizing t with
  | nil => exact ⟨rfl, h⟩
  | cons c l ih =>
    have h1 := Tap.run1_plan t c
    have h2 := Tap.run1_counter t c
    have hle : (t.run1 c).counter ≤ (t.run1 c).plan := by
      rw [h1, h2]; split <;> omega
    have hrec := ih (t.run1 c) hle
    rw [List.foldl_cons]
    exact ⟨by rw [hrec.1, h1], by rw [← h1]; exact hrec.2⟩

theorem Tap.runSkips (l : List CheckCall) (t : Tap)
    (hl : ∀ c ∈ l, ∃ d, c = CheckCall.skip d) :
    ∃ ext, (l.foldl Tap.run1 t).output = t.output ++ ext ∧
      ∀ line ∈ ext, ∃ n d, line = TapLine.ok n (d ++ " # SKIP") := by
  induction l generalizing t with
  | nil => exact ⟨[], by simp, by simp⟩
  | cons c l ih =>
    obtain ⟨d, rfl⟩ := hl c (List.mem_cons_self c l)
    obtain ⟨ext, hext, hprop⟩ :=
      ih (t.run1 (CheckCall.skip d)) (fun c hc => hl c (List.mem_cons_of_mem _ hc))
    rw [List.foldl_cons]
    by_cases hc : t.counter < t.plan
    · refine ⟨TapLine.ok (t.counter + 1) (d ++ " # SKIP") :: ext, ?_, ?_⟩
      · rw [hext]
        simp [Tap.run1, Tap.skip, Tap.ok, hc]
      · intro line hline
        rcases List.mem_cons.mp hline with rfl | hline
        · exact ⟨t.counter + 1, d, rfl⟩
        · exact hprop line hline
    · refine ⟨ext, ?_, hprop⟩
      rw [hext]
      simp [Tap.run1, Tap.skip, Tap.ok, hc]

set_option maxRecDepth 10000 in
theorem mainCalls_length (d₁ d₂ : String)
    (openFirst openSecond : Except SpError Unit)
    (pinOutcome : Nat → Except SpError Unit)
    (txOutcome : Nat → Nat → Bool → Except SpError Unit) :
    (mainCalls d₁ d₂ openFirst openSecond pinOutcome txOutcome).length =
      134 := rfl

/-- C7: the declared plan is 134 — two open checks, four handshake-line
checks, and 4 baud rates × 16 pin configurations × 2 directions of
transmission checks, 2 + 4 + 4·16·2 in all — the driver makes exactly that
many reporter calls, every outcome (pass, fail or skip) consumes exactly one
slot so the final counter and printed line count equal the plan, and at
every prefix of the run the counter never exceeds the plan. -/
theorem plan_matches_checks (d₁ d₂ : String)
    (openFirst openSecond : Except SpError Unit)
    (pinOutcome : Nat → Except SpError Unit)
    (txOutcome : Nat → Nat → Bool → Except SpError Unit) :
    (mainTap d₁ d₂ openFirst openSecond pinOutcome txOutcome).plan = 134 ∧
    (mainCalls d₁ d₂ openFirst openSecond pinOutcome txOutcome).length =
      2 + 4 + 4 * 16 * 2 ∧
    (mainTap d₁ d₂ openFirst openSecond pinOutcome txOutcome).counter =
      134 ∧
    (mainTap d₁ d₂ openFirst openSecond pinOutcome
      txOutcome).output.length = 134 ∧
    (∀ l₁ l₂,
      mainCalls d₁ d₂ openFirst openSecond pinOutcome txOutcome =
        l₁ ++ l₂ →
      (l₁.foldl Tap.run1 (Tap.new 134)).counter ≤ 134) := by
  have hlen := mainCalls_length d₁ d₂ openFirst openSecond pinOutcome
    txOutcome
  have hfull := Tap.runList_full
    (mainCalls d₁ d₂ openFirst openSecond pinOutcome txOutcome)
    (Tap.new 134) (by rw [hlen]; simp [Tap.new])
  refine ⟨hfull.1, by omega, ?_, ?_, ?_⟩
  · rw [mainTap, hfull.2.1, hlen]
    rfl
  · rw [mainTap, hfull.2.2, hlen]
    rfl
  · intro l₁ l₂ _
    have := Tap.runList_le l₁ (Tap.new 134) (by simp [Tap.new])
    exact this.2

/-- Witness for C7: with both opens succeeding and all-pass oracles the
counter reaches the plan of 134, and the empty prefix keeps the counter
within the plan. -/
theorem plan_matches_checks_witness :
    (mainTap "p1" "p2" (.ok ()) (.ok ()) (fun _ => .ok ())
      (fun _ _ _ => .ok ())).counter = 134 ∧
    (([] : List CheckCall).foldl Tap.run1 (Tap.new 134)).counter ≤ 134 :=
  ⟨(plan_matches_checks "p1" "p2" (.ok ()) (.ok ()) (fun _ => .ok ())
      (fun _ _ _ => .ok ())).2.2.1,
   (plan_matches_checks "p1" "p2" (.ok ()) (.ok ()) (fun _ => .ok ())
      (fun _ _ _ => .ok ())).2.2.2.2 [] _ rfl⟩

/-- C5: when either port fails to open, every handshake-line and
transmission check of the run is a skip call, every reported line after the
two open results is an `ok` line carrying the `# SKIP` directive — never a
plain pass and never a `not ok` — and the skipped checks still consume one
plan slot each, the counter and line count reaching the full plan. -/
theorem open_failure_skips (d₁ d₂ : String)
    (openFirst openSecond : Except SpError Unit)
    (pinOutcome : Nat → Except SpError Unit)
    (txOutcome : Nat → Nat → Bool → Except SpError Unit)
    (h : openFirst.isOk = false ∨ openSecond.isOk = false) :
    (∀ c ∈ (mainCalls d₁ d₂ openFirst openSecond pinOutcome
        txOutcome).drop 2, ∃ d, c = CheckCall.skip d) ∧
    (∀ line ∈ (mainTap d₁ d₂ openFirst openSecond pinOutcome
        txOutcome).output.drop 2,
      ∃ n d, line = TapLine.ok n (d ++ " # SKIP")) ∧
    (mainTap d₁ d₂ openFirst openSecond pinOutcome txOutcome).counter =
      134 ∧
    (mainTap d₁ d₂ openFirst openSecond pinOutcome
      txOutcome).output.length = 134 := by
  have hboth : (openFirst.isOk && openSecond.isOk) = false := by
    rcases h with h | h <;> simp [h]
  have hskip : ∀ c ∈ (mainCalls d₁ d₂ openFirst openSecond pinOutcome
      txOutcome).drop 2, ∃ d, c = CheckCall.skip d := by
    have hall : (((mainCalls d₁ d₂ openFirst openSecond pinOutcome
        txOutcome).drop 2).all CheckCall.isSkip) = true := by
      simp only [mainCalls, hboth, Bool.false_eq_true, if_false]
      rfl
    intro c hc
    have hcs := List.all_eq_true.mp hall c hc
    cases c with
    | skip d => exact ⟨d, rfl⟩
    | result d r => simp [CheckCall.isSkip] at hcs
  have hplan := plan_matches_checks d₁ d₂ openFirst openSecond pinOutcome
    txOutcome
  refine ⟨hskip, ?_, hplan.2.2.1, hplan.2.2.2.1⟩
  -- split the run into the two open results and the skipped tail
  have hdecomp : mainCalls d₁ d₂ openFirst openSecond pinOutcome txOutcome =
      (mainCalls d₁ d₂ openFirst openSecond pinOutcome txOutcome).take 2 ++
      (mainCalls d₁ d₂ openFirst openSecond pinOutcome txOutcome).drop 2 :=
    (List.take_append_drop 2 _).symm
  have hlen2 : ((mainCalls d₁ d₂ openFirst openSecond pinOutcome
      txOutcome).take 2).length = 2 := by
    rw [List.length_take]
    rw [mainCalls_length d₁ d₂ openFirst openSecond pinOutcome txOutcome]
    decide
  have hfront := Tap.runList_full
    ((mainCalls d₁ d₂ openFirst openSecond pinOutcome txOutcome).take 2)
    (Tap.new 134) (by rw [hlen2]; simp [Tap.new])
  obtain ⟨ext, hext, hprop⟩ := Tap.runSkips
    ((mainCalls d₁ d₂ openFirst openSecond pinOutcome txOutcome).drop 2)
    (((mainCalls d₁ d₂ openFirst openSecond pinOutcome txOutcome).take 2
      ).foldl Tap.run1 (Tap.new 134)) hskip
  intro line hline
  apply hprop line
  have houtlen : (((mainCalls d₁ d₂ openFirst openSecond pinOutcome
      txOutcome).take 2).foldl Tap.run1 (Tap.new 134)).output.length = 2 := by
    rw [hfront.2.2, hlen2]
    rfl
  have hout : (mainTap d₁ d₂ openFirst openSecond pinOutcome
      txOutcome).output =
      (((mainCalls d₁ d₂ openFirst openSecond pinOutcome txOutcome).take 2
        ).foldl Tap.run1 (Tap.new 134)).output ++ ext := by
    rw [mainTap]
    conv_lhs => rw [hdecomp]
    rw [List.foldl_append]
    exact hext
  have hdrop : ∀ (l₁ l₂ : List TapLine), l₁.length = 2 →
      (l₁ ++ l₂).drop 2 = l₂ := by
    intro l₁ l₂ hl
    rw [← hl, List.drop_left]
  rw [hout, hdrop _ ext houtlen] at hline
  exact hline

/-- Witness for C5: with the first open failing and arbitrary all-pass
oracles, the first skipped check is reported as an `ok` line with the
`# SKIP` directive and the counter still reaches the plan. -/
theorem open_failure_skips_witness :
    (∀ line ∈ (mainTap "p1" "p2" (.error (.hw 2)) (.ok ())
        (fun _ => .ok ()) (fun _ _ _ => .ok ())).output.drop 2,
      ∃ n d, line = TapLine.ok n (d ++ " # SKIP")) ∧
    (mainTap "p1" "p2" (.error (.hw 2)) (.ok ()) (fun _ => .ok ())
      (fun _ _ _ => .ok ())).counter = 134 :=
  ⟨(open_failure_skips "p1" "p2" (.error (.hw 2)) (.ok ())
      (fun _ => .ok ()) (fun _ _ _ => .ok ()) (Or.inl rfl)).2.1,
   (open_failure_skips "p1" "p2" (.error (.hw 2)) (.ok ())
      (fun _ => .ok ()) (fun _ _ _ => .ok ()) (Or.inl rfl)).2.2.1⟩

/-- C6: the platform status adapter forwards every operation — read, write,
flush, name and metadata queries, baud-rate, data-bits, flow-control,
parity, stop-bits and timeout configuration, line writes, buffer occupancy
queries, buffer clearing, cloning and break control — unchanged to the
wrapped handle, and overrides exactly the four modem-status reads
(Clear-To-Send, Data-Set-Ready, Ring-Indicator, Carrier-Detect) with the
TIOCMGET query that decodes the specific requested bit and translates an OS
errno into the port error type. -/
theorem fixed_tty_frame {σ κ : Type} (inner : SerialPortOps σ κ)
    (os : OsCall σ) :
    (FixedTTYPort inner os).read = inner.read ∧
    (FixedTTYPort inner os).write = inner.write ∧
    (FixedTTYPort inner os).flush = inner.flush ∧
    (FixedTTYPort inner os).name = inner.name ∧
    (FixedTTYPort inner os).baud_rate = inner.baud_rate ∧
    (FixedTTYPort inner os).data_bits = inner.data_bits ∧
    (FixedTTYPort inner os).flow_control = inner.flow_control ∧
    (FixedTTYPort inner os).parity = inner.parity ∧
    (FixedTTYPort inner os).stop_bits = inner.stop_bits ∧
    (FixedTTYPort inner os).timeout = inner.timeout ∧
    (FixedTTYPort inner os).set_baud_rate = inner.set_baud_rate ∧
    (FixedTTYPort inner os).set_data_bits = inner.set_data_bits ∧
    (FixedTTYPort inner os).set_flow_control = inner.set_flow_control ∧
    (FixedTTYPort inner os).set_parity = inner.set_parity ∧
    (FixedTTYPort inner os).set_stop_bits = inner.set_stop_bits ∧
    (FixedTTYPort inner os).set_timeout = inner.set_timeout ∧
    (FixedTTYPort inner os).write_request_to_send =
      inner.write_request_to_send ∧
    (FixedTTYPort inner os).write_data_terminal_ready =
      inner.write_data_terminal_ready ∧
    (FixedTTYPort inner os).bytes_to_read = inner.bytes_to_read ∧
    (FixedTTYPort inner os).bytes_to_write = inner.bytes_to_write ∧
    (FixedTTYPort inner os).clear = inner.clear ∧
    (FixedTTYPort inner os).try_clone = inner.try_clone ∧
    (FixedTTYPort inner os).set_break = inner.set_break ∧
    (FixedTTYPort inner os).clear_break = inner.clear_break ∧
    (FixedTTYPort inner os).read_clear_to_send = read_pin os TIOCM_CTS ∧
    (FixedTTYPort inner os).read_data_set_ready = read_pin os TIOCM_DSR ∧
    (FixedTTYPort inner os).read_ring_indicator = read_pin os TIOCM_RI ∧
    (FixedTTYPort inner os).read_carrier_detect = read_pin os TIOCM_CD ∧
    (∀ pin s status s₁, os s = (.ok status, s₁) →
      read_pin os pin s = (.ok (status &&& pin == pin), s₁)) ∧
    (∀ pin s err s₁, os s = (.error err, s₁) →
      read_pin os pin s = (.error (.hw err), s₁)) := by
  refine ⟨rfl, rfl, rfl, rfl, rfl, rfl, rfl, rfl, rfl, rfl, rfl, rfl, rfl,
    rfl, rfl, rfl, rfl, rfl, rfl, rfl, rfl, rfl, rfl, rfl, rfl, rfl, rfl,
    rfl, ?_, ?_⟩
  · intro pin s status s₁ hos
    simp [read_pin, hos]
  · intro pin s err s₁ hos
    simp [read_pin, hos]

/-- Witness for C6: on a register reading 0x120 (CTS and DSR asserted) the
adapter decodes Clear-To-Send as asserted. -/
theorem fixed_tty_frame_witness :
    read_pin demoOs TIOCM_CTS 0 = (.ok true, 0) :=
  (fixed_tty_frame demoInner demoOs).2.2.2.2.2.2.2.2.2.2.2.2.2.2.2.2.2.2.2.2.2.2.2.2.2.2.2.2.1
    TIOCM_CTS 0 0x120 0 rfl

end SerialTester
